import Mathlib

/-!
Shallow embedding of the air-monitor application (src/monitoring-app/src/main.rs).

The program drives a PMS7003 particulate sensor through a
wake / warm-up / collect / sleep protocol, reduces the collected frames to a
per-channel integer mean, and publishes the result over MQTT.  A second,
environmental sensor (BME280) publishes humidity / temperature / pressure.
The top-level loop spawns both units each tick and awaits them in order.

Modelling conventions:
  * u16 channel values are Nats (bounds appear as hypotheses where needed);
  * the u32 accumulator of `sum::<u32>()` wraps modulo 2^32 (release-mode
    semantics), modelled by folding with `% U32`;
  * `len() as u32` is modelled as `% U32`;
  * the chrono timestamp is modelled as an opaque String (its serialized form);
  * sensor I/O is modelled by explicit result streams (`Nat → Bool`,
    `Nat → Option OutputFrame`) indexed by attempt number, and the unbounded
    Rust loops become fuel-indexed recursions (fuel exhaustion = the loop is
    still running).
-/

namespace AirMonitor

/-- One PMS7003 frame; the three particulate channels are u16 in the driver. -/
structure OutputFrame where
  pm1_0 : Nat
  pm2_5 : Nat
  pm10 : Nat
deriving DecidableEq, Repr

/-- The aggregated status struct (`AitQualityStatus` in main.rs, sic);
pm fields are u32, the timestamp is modelled as its serialized text. -/
structure AitQualityStatus where
  pm_1_0 : Nat
  pm_2_5 : Nat
  pm_10 : Nat
  timestamp : String
deriving DecidableEq, Repr

/-- 2^32, the modulus of u32 arithmetic. -/
def U32 : Nat := 4294967296

/-- `iter().map(.. as u32).sum::<u32>()`: a left fold whose accumulator wraps
modulo 2^32 at every addition (release-mode overflow semantics). -/
def wrapSum32 (l : List Nat) : Nat :=
  l.foldl (fun a b => (a + b) % U32) 0

/-- `status_from_measurements` (main.rs lines 221-230): per-channel u32 sum
divided by `measurements.len() as u32`; the timestamp is taken at reduction
time (passed in as `now`). -/
def status_from_measurements (measurements : List OutputFrame) (now : String) :
    AitQualityStatus where
  pm_1_0 := wrapSum32 (measurements.map (fun m => m.pm1_0)) / (measurements.length % U32)
  pm_2_5 := wrapSum32 (measurements.map (fun m => m.pm2_5)) / (measurements.length % U32)
  pm_10 := wrapSum32 (measurements.map (fun m => m.pm10)) / (measurements.length % U32)
  timestamp := now

/-! ## The acquisition cycle (`get_air_quality_status`, main.rs lines 144-182)

Sensor I/O is modelled by streams indexed by attempt number:
`wakes i` is whether the i-th `wake()` call succeeds, `reads i` is the result
of the i-th `read()` call (one global index threaded through all phases),
`elapsed j` is the warm-up clock reading, in seconds, taken right after the
j-th warm-up read.  Every loop takes fuel; running out of fuel models a loop
that is still running (the Rust loops are unbounded). -/

/-- One observable step of a cycle, in program order. -/
inductive Event where
  | wakeCall (ok : Bool)
  | readCall (ok : Bool)
  | sleepCall (ok : Bool)
  | reduceCall (samples : Nat)
deriving DecidableEq, Repr

/-- Result of the wake-confirmation loop: fuel ran out, the `wake()?` error
propagated, or success carrying the next wake index, next read index and the
events performed. -/
inductive WakeResult where
  | fuelOut
  | err
  | ok (wi ri : Nat) (evs : List Event)
deriving DecidableEq, Repr

/-- Wake-confirmation loop (main.rs lines 149-154):
`loop { sensor.wake()?; if sensor.read().is_ok() { break; } }`.
A failing `wake()` propagates an error immediately; after a successful
`wake()`, a failing `read()` repeats the loop. -/
def wakePhase (wakes : Nat → Bool) (reads : Nat → Option OutputFrame) :
    Nat → Nat → Nat → WakeResult
  | 0, _, _ => .fuelOut
  | fuel + 1, wi, ri =>
    if wakes wi then
      match reads ri with
      | some _ => .ok (wi + 1) (ri + 1) [.wakeCall true, .readCall true]
      | none =>
        match wakePhase wakes reads fuel (wi + 1) (ri + 1) with
        | .fuelOut => .fuelOut
        | .err => .err
        | .ok wi2 ri2 evs => .ok wi2 ri2 (.wakeCall true :: .readCall false :: evs)
    else .err

/-- Warm-up loop (main.rs lines 157-163): read and discard, stop after the
first read past which more than 30 seconds have elapsed.  Returns the next
read index and the events performed. -/
def warmupPhase (reads : Nat → Option OutputFrame) (elapsed : Nat → Nat) :
    Nat → Nat → Nat → Option (Nat × List Event)
  | 0, _, _ => none
  | fuel + 1, j, ri =>
    if elapsed j > 30 then some (ri + 1, [Event.readCall (reads ri).isSome])
    else
      match warmupPhase reads elapsed fuel (j + 1) (ri + 1) with
      | none => none
      | some (ri2, evs) => some (ri2, Event.readCall (reads ri).isSome :: evs)

/-- Collect loop (main.rs lines 166-176):
`while measurements.len() < num_of_measurements { match sensor.read() ... }`.
Successful reads are pushed, failures are logged and dropped.  Returns the
collected frames, the next read index and the events performed. -/
def collectPhase (reads : Nat → Option OutputFrame) (target : Nat) :
    Nat → Nat → List OutputFrame → Option (List OutputFrame × Nat × List Event)
  | 0, ri, acc =>
    if acc.length < target then none else some (acc, ri, [])
  | fuel + 1, ri, acc =>
    if acc.length < target then
      match reads ri with
      | some m =>
        match collectPhase reads target fuel (ri + 1) (acc ++ [m]) with
        | none => none
        | some (ms, ri2, evs) => some (ms, ri2, .readCall true :: evs)
      | none =>
        match collectPhase reads target fuel (ri + 1) acc with
        | none => none
        | some (ms, ri2, evs) => some (ms, ri2, .readCall false :: evs)
    else some (acc, ri, [])

/-- Result of a whole acquisition cycle. -/
inductive CycleResult where
  | fuelOut
  | err
  | ok (status : AitQualityStatus) (trace : List Event)
deriving DecidableEq, Repr

/-- The acquisition cycle `get_air_quality_status` (main.rs lines 144-182):
wake-confirm, warm up, collect `target` successful frames, then call
`sleep()` with its result ignored, and only then reduce the collected frames
(the code computes `status_from_measurements` after `sensor.sleep()`). -/
def get_air_quality_status (wakes : Nat → Bool) (reads : Nat → Option OutputFrame)
    (elapsed : Nat → Nat) (sleepOk : Bool) (now : String) (target fuel : Nat) :
    CycleResult :=
  match wakePhase wakes reads fuel 0 0 with
  | .fuelOut => .fuelOut
  | .err => .err
  | .ok _ ri evW =>
    match warmupPhase reads elapsed fuel 0 ri with
    | none => .fuelOut
    | some (ri2, evU) =>
      match collectPhase reads target fuel ri2 [] with
      | none => .fuelOut
      | some (ms, _, evC) =>
        .ok (status_from_measurements ms now)
          (evW ++ evU ++ evC ++ [.sleepCall sleepOk, .reduceCall ms.length])

/-! ## Publisher (`publish_status`, main.rs lines 184-219) -/

/-- MQTT quality-of-service levels of the rumqtt client. -/
inductive QoS where
  | atMostOnce
  | atLeastOnce
  | exactlyOnce
deriving DecidableEq, Repr

/-- One outbound MQTT publish: topic, QoS, retain flag, payload. -/
structure Msg where
  topic : String
  qos : QoS
  retain : Bool
  payload : String
deriving DecidableEq, Repr

/-- The serde_json pretty serialization of AitQualityStatus: all three pm
fields plus the timestamp, two-space indented.  The timestamp field holds its
serialized text directly (see the modelling conventions above). -/
def serializeStatus (s : AitQualityStatus) : String :=
  "\x7b\n  \"pm_1_0\": " ++ toString s.pm_1_0 ++
  ",\n  \"pm_2_5\": " ++ toString s.pm_2_5 ++
  ",\n  \"pm_10\": " ++ toString s.pm_10 ++
  ",\n  \"timestamp\": \"" ++ s.timestamp ++ "\"\n\x7d"

/-- `publish_status` (main.rs lines 184-219): four publishes, in program
order, all QoS AtLeastOnce and retained — the full serialized status under
`<topic>/status`, then the plain decimal rendering of each channel under
`<topic>/pm1_0`, `<topic>/pm2_5`, `<topic>/pm10`. -/
def publish_status (status : AitQualityStatus) (topic : String) : List Msg :=
  [ ⟨topic ++ "/status", .atLeastOnce, true, serializeStatus status⟩,
    ⟨topic ++ "/pm1_0", .atLeastOnce, true, toString status.pm_1_0⟩,
    ⟨topic ++ "/pm2_5", .atLeastOnce, true, toString status.pm_2_5⟩,
    ⟨topic ++ "/pm10", .atLeastOnce, true, toString status.pm_10⟩ ]

/-- The three publishes of `temperature_task` (main.rs lines 94-125); the
float payloads are modelled as the already-rendered strings. -/
def temperature_publishes (humidity temperature pressure : String)
    (topic : String) : List Msg :=
  [ ⟨topic ++ "/humidity", .atLeastOnce, true, humidity⟩,
    ⟨topic ++ "/temperature", .atLeastOnce, true, temperature⟩,
    ⟨topic ++ "/pressure", .atLeastOnce, true, pressure⟩ ]

/-! ## One scheduler tick (main.rs lines 52-70, 73-134)

Each spawned unit of work is modelled as a list of atomic steps: a publish,
or a crash (an `unwrap()` panicking inside the task).  `main` awaits the
pollution unit first and unwraps its join result, then the temperature unit:
a crashed pollution unit therefore panics `main` while the temperature unit
may have run only a prefix of its steps before the runtime shuts down — that
prefix length `k` is the scheduling parameter of `tickObserved`. -/

/-- An atomic step of a spawned unit of work. -/
inductive Step where
  | pub (m : Msg)
  | crash
deriving DecidableEq, Repr

/-- The messages a unit publishes before its first crash, if any. -/
def taskMsgs : List Step → List Msg
  | [] => []
  | .pub m :: rest => m :: taskMsgs rest
  | .crash :: _ => []

/-- Whether a unit runs to completion without panicking. -/
def taskOk : List Step → Bool
  | [] => true
  | .pub _ :: rest => taskOk rest
  | .crash :: _ => false

/-- A sequence of `publish(..).unwrap()` calls: each either emits its message
or panics the task on the spot (`pubOk i` tells whether the i-th call
succeeds). -/
def publishSteps (pubOk : Nat → Bool) : List Msg → Nat → List Step
  | [], _ => []
  | m :: rest, i =>
    if pubOk i then .pub m :: publishSteps pubOk rest (i + 1) else [.crash]

/-- `pollution_task` (main.rs lines 73-84): `get_air_quality_status` is
unwrapped — an acquisition error panics the task before any publish —
then `publish_status` runs with every publish unwrapped. -/
def pollutionSteps (acq : Option AitQualityStatus) (pubOk : Nat → Bool)
    (topic : String) : List Step :=
  match acq with
  | none => [.crash]
  | some st => publishSteps pubOk (publish_status st topic) 0

/-- `temperature_task` (main.rs lines 86-134): `measure()` is unwrapped, then
the three environmental publishes run, each unwrapped. -/
def temperatureSteps (measurement : Option (String × String × String))
    (pubOk : Nat → Bool) (topic : String) : List Step :=
  match measurement with
  | none => [.crash]
  | some m => publishSteps pubOk (temperature_publishes m.1 m.2.1 m.2.2 topic) 0

/-- The observable outcome of one tick body (main.rs lines 55-69): the set of
messages that reach the broker and whether the process survives the tick.
If the pollution unit completes, `main` awaits the temperature unit, which
then runs all its steps; if the pollution unit crashes, `main` panics on the
join and only some prefix (`k` steps) of the temperature unit has run. -/
def tickObserved (poll temp : List Step) (k : Nat) : List Msg × Bool :=
  if taskOk poll then
    (taskMsgs poll ++ taskMsgs temp, taskOk temp)
  else
    (taskMsgs poll ++ taskMsgs (temp.take k), false)

/-! ## Cycle scheduler (main.rs lines 52-70)

`schedRun` threads the two sensor handles through the tick loop: each handle
counts the cycles completed on it, a tick increments each by one, and a unit
failure (`pOk n` or `tOk n` false) panics `main` — modelled as `none`, the
loop has terminated.  `schedTrace` is the event trace of the loop: the events
of tick n, in any within-tick interleaving `block n`, followed by those of
tick n+1. -/

/-- State of the scheduler after n completed ticks: cycles completed on the
pollution handle and on the environmental handle; `none` once a unit failure
has panicked the loop. -/
def schedRun (pOk tOk : Nat → Bool) : Nat → Option (Nat × Nat)
  | 0 => some (0, 0)
  | n + 1 =>
    match schedRun pOk tOk n with
    | none => none
    | some (s, b) => if pOk n then (if tOk n then some (s + 1, b + 1) else none) else none

/-- The two sensor types driven by the scheduler. -/
inductive SensorKind where
  | particulate
  | environmental
deriving DecidableEq, Repr

/-- Start and completion of one unit of work of one tick. -/
inductive SEvent where
  | unitStart (s : SensorKind) (tick : Nat)
  | unitDone (s : SensorKind) (tick : Nat)
deriving DecidableEq, Repr

/-- The scheduler trace over the first N ticks: the events of tick 0, then of
tick 1, and so on — each tick's events (`block n`, an arbitrary within-tick
interleaving of its two units) complete before the next tick fires, because
`main` awaits both join handles before looping. -/
def schedTrace (block : Nat → List SEvent) (N : Nat) : List SEvent :=
  (List.range N).flatMap block

/-! ## Concrete inputs used by witnesses and counterexamples -/

/-- Three frames whose per-channel values are 1, 2, 3. -/
def exFrames : List OutputFrame := [⟨1, 1, 1⟩, ⟨2, 2, 2⟩, ⟨3, 3, 3⟩]

/-- 65538 maximal u16 frames: the per-channel u32 sum wraps. -/
def overflowFrames : List OutputFrame := List.replicate 65538 ⟨65535, 65535, 65535⟩

/-- A read stream failing on the first and third attempts. -/
def exReads : Nat → Option OutputFrame := fun i =>
  if i = 0 ∨ i = 2 then none else some ⟨5, 5, 5⟩

/-- Whether an event is the reduction. -/
def isReduce : Event → Bool
  | .reduceCall _ => true
  | _ => false

/-- Whether an event is the sleep call. -/
def isSleep : Event → Bool
  | .sleepCall _ => true
  | _ => false

/-- Whether a trace performs its first reduction strictly before its first
sleep call — the ordering the specification asserts for steps 4 and 5. -/
def reduceBeforeSleep (tr : List Event) : Bool :=
  match tr.findIdx? isReduce, tr.findIdx? isSleep with
  | some i, some j => decide (i < j)
  | _, _ => false

/-- The trace of a healthy one-measurement cycle. -/
def exTrace : List Event :=
  [.wakeCall true, .readCall true, .readCall true, .readCall true,
   .sleepCall true, .reduceCall 1]

/-- A within-tick interleaving: both units start, the environmental one
finishes first. -/
def exBlock : Nat → List SEvent := fun n =>
  [.unitStart .particulate n, .unitStart .environmental n,
   .unitDone .environmental n, .unitDone .particulate n]

/-! ## Helper lemmas -/

theorem wrapSum32_foldl (l : List Nat) :
    ∀ a : Nat, l.foldl (fun x y => (x + y) % U32) (a % U32) = (a + l.sum) % U32 := by
  induction l with
  | nil => intro a; simp [List.foldl]
  | cons b t ih =>
    intro a
    simp only [List.foldl, List.sum_cons]
    rw [Nat.mod_add_mod, ih (a + b), Nat.add_assoc]

/-- The wrapping u32 sum is the plain sum reduced modulo 2^32. -/
theorem wrapSum32_eq (l : List Nat) : wrapSum32 l = l.sum % U32 := by
  have h := wrapSum32_foldl l 0
  simpa [wrapSum32] using h

theorem sum_lt_U32_of_bounded (l : List Nat)
    (hb : ∀ x ∈ l, x < 65536) (hlen : l.length ≤ 65537) : l.sum < U32 := by
  have hle : ∀ x ∈ l, x ≤ 65535 := fun x hx => Nat.lt_succ_iff.mp (hb x hx)
  have h := List.sum_le_card_nsmul l 65535 hle
  simp only [smul_eq_mul] at h
  have : l.length * 65535 ≤ 65537 * 65535 := Nat.mul_le_mul_right _ hlen
  have := Nat.le_trans h this
  have hU : U32 = 4294967296 := rfl
  omega

/-- When the per-channel sum fits in u32, `status_from_measurements` computes
the exact truncated integer mean on every channel. -/
theorem status_exact_mean (ms : List OutputFrame) (now : String)
    (_hne : ms ≠ [])
    (hb : ∀ m ∈ ms, m.pm1_0 < 65536 ∧ m.pm2_5 < 65536 ∧ m.pm10 < 65536)
    (hlen : ms.length ≤ 65537) :
    (status_from_measurements ms now).pm_1_0 = (ms.map (fun m => m.pm1_0)).sum / ms.length ∧
    (status_from_measurements ms now).pm_2_5 = (ms.map (fun m => m.pm2_5)).sum / ms.length ∧
    (status_from_measurements ms now).pm_10 = (ms.map (fun m => m.pm10)).sum / ms.length := by
  have hlenmod : ms.length % U32 = ms.length := by
    apply Nat.mod_eq_of_lt
    have : (65537 : Nat) < U32 := by norm_num [U32]
    omega
  have channel : ∀ f : OutputFrame → Nat, (∀ m ∈ ms, f m < 65536) →
      wrapSum32 (ms.map f) / (ms.length % U32) = (ms.map f).sum / ms.length := by
    intro f hf
    have hb' : ∀ x ∈ ms.map f, x < 65536 := by
      intro x hx
      rcases List.mem_map.mp hx with ⟨m, hm, rfl⟩
      exact hf m hm
    have hlt : (ms.map f).sum < U32 :=
      sum_lt_U32_of_bounded _ hb' (by simpa using hlen)
    rw [wrapSum32_eq, Nat.mod_eq_of_lt hlt, hlenmod]
  refine ⟨channel _ (fun m hm => (hb m hm).1), channel _ (fun m hm => (hb m hm).2.1),
    channel _ (fun m hm => (hb m hm).2.2)⟩

/-! ## Phase characterization lemmas -/

theorem countP_add_countP_not (p : Nat → Bool) :
    ∀ l : List Nat, l.countP p + l.countP (fun a => !p a) = l.length := by
  intro l
  induction l with
  | nil => simp
  | cons a t ih =>
    by_cases h : p a = true <;>
      simp [List.countP_cons, h, ← ih] <;> omega

/-- Full characterization of a terminating collect loop: starting from an
accumulator not yet past the target, it stops with exactly `target` collected
frames, namely the accumulator followed by every successful read among the
attempts it consumed, performing one event per attempt. -/
theorem collect_spec (reads : Nat → Option OutputFrame) (target : Nat) :
    ∀ fuel ri acc ms k evs, acc.length ≤ target →
      collectPhase reads target fuel ri acc = some (ms, k, evs) →
      ms.length = target ∧ ri ≤ k ∧
      ms = acc ++ (List.range' ri (k - ri)).filterMap reads ∧
      evs.length = k - ri := by
  intro fuel
  induction fuel with
  | zero =>
    intro ri acc ms k evs hle h
    simp only [collectPhase] at h
    split at h
    · exact absurd h (by simp)
    · rename_i hge
      obtain ⟨rfl, rfl, rfl⟩ : acc = ms ∧ ri = k ∧ ([] : List Event) = evs := by
        simpa using h
      refine ⟨by omega, Nat.le_refl _, ?_, by simp⟩
      simp [Nat.sub_self]
  | succ fuel ih =>
    intro ri acc ms k evs hle h
    simp only [collectPhase] at h
    split at h
    · rename_i hlt
      split at h
      · rename_i m hr
        split at h
        · exact absurd h (by simp)
        · rename_i ms' k' evs' hc
          obtain ⟨h1, h2, h3⟩ : ms' = ms ∧ k' = k ∧
              Event.readCall true :: evs' = evs := by simpa using h
          subst h1; subst h2; subst h3
          obtain ⟨g1, g2, g3, g4⟩ :=
            ih (ri + 1) (acc ++ [m]) ms' k' evs' (by simp; omega) hc
          refine ⟨g1, by omega, ?_, by simp [g4]; omega⟩
          have hk : k' - ri = (k' - (ri + 1)) + 1 := by omega
          rw [hk, List.range'_succ, List.filterMap_cons, hr, g3]
          simp
      · rename_i hr
        split at h
        · exact absurd h (by simp)
        · rename_i ms' k' evs' hc
          obtain ⟨h1, h2, h3⟩ : ms' = ms ∧ k' = k ∧
              Event.readCall false :: evs' = evs := by simpa using h
          subst h1; subst h2; subst h3
          obtain ⟨g1, g2, g3, g4⟩ := ih (ri + 1) acc ms' k' evs' hle hc
          refine ⟨g1, by omega, ?_, by simp [g4]; omega⟩
          have hk : k' - ri = (k' - (ri + 1)) + 1 := by omega
          rw [hk, List.range'_succ, List.filterMap_cons, hr, g3]
    · rename_i hge
      obtain ⟨rfl, rfl, rfl⟩ : acc = ms ∧ ri = k ∧ ([] : List Event) = evs := by
        simpa using h
      refine ⟨by omega, Nat.le_refl _, ?_, by simp⟩
      simp [Nat.sub_self]

/-- With target 0 the collect loop exits immediately: the while condition
`len < 0` is false at once, no read happens, nothing is collected. -/
theorem collect_target_zero (reads : Nat → Option OutputFrame) (fuel ri : Nat) :
    collectPhase reads 0 fuel ri [] = some ([], ri, []) := by
  cases fuel <;> simp [collectPhase]

/-- Warm-up control flow is independent of the read results: the loop exits
after the same number of reads, at the same read index, whatever `read()`
returns — failures neither abort nor extend the phase. -/
theorem warmup_independent_of_reads (reads reads' : Nat → Option OutputFrame)
    (elapsed : Nat → Nat) :
    ∀ fuel j ri,
      (warmupPhase reads elapsed fuel j ri).map (fun r => (r.1, r.2.length)) =
      (warmupPhase reads' elapsed fuel j ri).map (fun r => (r.1, r.2.length)) := by
  intro fuel
  induction fuel with
  | zero => intro j ri; simp [warmupPhase]
  | succ fuel ih =>
    intro j ri
    simp only [warmupPhase]
    split
    · simp
    · have h := ih (j + 1) (ri + 1)
      cases h1 : warmupPhase reads elapsed fuel (j + 1) (ri + 1) with
      | none =>
        cases h2 : warmupPhase reads' elapsed fuel (j + 1) (ri + 1) with
        | none => simp
        | some t => rw [h1, h2] at h; exact absurd h (by simp)
      | some t =>
        obtain ⟨a, b⟩ := t
        cases h2 : warmupPhase reads' elapsed fuel (j + 1) (ri + 1) with
        | none => rw [h1, h2] at h; exact absurd h (by simp)
        | some t' =>
          obtain ⟨c, d⟩ := t'
          rw [h1, h2] at h
          simp at h
          simp [h1, h2, h.1, h.2]

/-- A terminating warm-up exits exactly at the first read after which more
than 30 seconds have elapsed, having performed one read per iteration. -/
theorem warmup_exits_on_duration (reads : Nat → Option OutputFrame)
    (elapsed : Nat → Nat) :
    ∀ fuel j ri ri2 evs,
      warmupPhase reads elapsed fuel j ri = some (ri2, evs) →
      ∃ d, ri2 = ri + d + 1 ∧ elapsed (j + d) > 30 ∧
        (∀ d' < d, elapsed (j + d') ≤ 30) ∧ evs.length = d + 1 := by
  intro fuel
  induction fuel with
  | zero => intro j ri ri2 evs h; exact absurd h (by simp [warmupPhase])
  | succ fuel ih =>
    intro j ri ri2 evs h
    simp only [warmupPhase] at h
    split at h
    · rename_i ht
      obtain ⟨h1, h2⟩ : ri + 1 = ri2 ∧
          [Event.readCall (reads ri).isSome] = evs := by simpa using h
      subst h1; subst h2
      exact ⟨0, by omega, by simpa using ht,
        fun d' hd' => absurd hd' (Nat.not_lt_zero d'), by simp⟩
    · rename_i ht
      split at h
      · exact absurd h (by simp)
      · rename_i ri' evs' hw
        obtain ⟨h1, h2⟩ : ri' = ri2 ∧
            Event.readCall (reads ri).isSome :: evs' = evs := by simpa using h
        subst h1; subst h2
        obtain ⟨d, hd1, hd2, hd3, hd4⟩ := ih (j + 1) (ri + 1) ri' evs' hw
        refine ⟨d + 1, by omega, ?_, ?_, by simp [hd4]⟩
        · have he : j + (d + 1) = j + 1 + d := by omega
          rw [he]; exact hd2
        · intro d' hd'
          cases d' with
          | zero => simpa using Nat.not_lt.mp ht
          | succ e =>
            have he : j + (e + 1) = j + 1 + e := by omega
            rw [he]; exact hd3 e (by omega)

/-- Wake-confirmation loop behaviour, one iteration at a time: a failing
`wake()` surfaces as the cycle error at once; a successful `wake()` followed
by a successful `read()` completes the phase; a successful `wake()` followed
by a failing `read()` retries the whole wake-and-read iteration. -/
theorem wake_step (wakes : Nat → Bool) (reads : Nat → Option OutputFrame)
    (fuel wi ri : Nat) :
    (wakes wi = false → wakePhase wakes reads (fuel + 1) wi ri = .err) ∧
    (∀ m, wakes wi = true → reads ri = some m →
      wakePhase wakes reads (fuel + 1) wi ri =
        .ok (wi + 1) (ri + 1) [.wakeCall true, .readCall true]) ∧
    (wakes wi = true → reads ri = none →
      ∀ wi2 ri2 evs, wakePhase wakes reads fuel (wi + 1) (ri + 1) = .ok wi2 ri2 evs →
        wakePhase wakes reads (fuel + 1) wi ri =
          .ok wi2 ri2 (.wakeCall true :: .readCall false :: evs)) := by
  refine ⟨fun hw => by simp [wakePhase, hw], fun m hw hr => by simp [wakePhase, hw, hr],
    fun hw hr wi2 ri2 evs hrec => ?_⟩
  simp [wakePhase, hw, hr, hrec]

/-- A failing first `wake()` makes the whole cycle return an error: the wake
failure is propagated out of `get_air_quality_status` by the `?` operator. -/
theorem cycle_err_of_wake_failure (wakes : Nat → Bool)
    (reads : Nat → Option OutputFrame) (elapsed : Nat → Nat) (sleepOk : Bool)
    (now : String) (target fuel : Nat) (hw : wakes 0 = false) :
    get_air_quality_status wakes reads elapsed sleepOk now target (fuel + 1) = .err := by
  simp [get_air_quality_status, wakePhase, hw]

/-- Decomposition of a successful cycle into its phases: the wake phase ends
at some read index, warm-up runs from there, collect starts from an empty
accumulator at the post-warm-up index, and the status is the reduction of the
collected frames only, with sleep and reduce recorded last, in that order. -/
theorem cycle_spec (wakes : Nat → Bool) (reads : Nat → Option OutputFrame)
    (elapsed : Nat → Nat) (sleepOk : Bool) (now : String) (target fuel : Nat)
    (st : AitQualityStatus) (tr : List Event)
    (h : get_air_quality_status wakes reads elapsed sleepOk now target fuel =
        .ok st tr) :
    ∃ wi ri evW ri2 evU ms k evC,
      wakePhase wakes reads fuel 0 0 = .ok wi ri evW ∧
      warmupPhase reads elapsed fuel 0 ri = some (ri2, evU) ∧
      collectPhase reads target fuel ri2 [] = some (ms, k, evC) ∧
      st = status_from_measurements ms now ∧
      tr = evW ++ evU ++ evC ++ [.sleepCall sleepOk, .reduceCall ms.length] := by
  unfold get_air_quality_status at h
  split at h
  · exact absurd h (by simp)
  · exact absurd h (by simp)
  · rename_i wi ri evW hwk
    split at h
    · exact absurd h (by simp)
    · rename_i t ri2 evU hwu
      split at h
      · exact absurd h (by simp)
      · rename_i t' ms k evC hco
        obtain ⟨rfl, rfl⟩ : status_from_measurements ms now = st ∧
            evW ++ evU ++ evC ++ [Event.sleepCall sleepOk,
              Event.reduceCall ms.length] = tr := by
          simpa using h
        exact ⟨wi, ri, evW, ri2, evU, ms, k, evC, hwk, hwu, hco, rfl, rfl⟩

theorem schedTrace_succ (block : Nat → List SEvent) (N : Nat) :
    schedTrace block (N + 1) = schedTrace block N ++ block N := by
  simp [schedTrace, List.range_succ]

/-- Two consecutive tick blocks appear consecutively inside every long-enough
scheduler trace. -/
theorem consecutive_blocks_sublist (block : Nat → List SEvent) (n N : Nat)
    (hN : n + 1 < N) :
    List.Sublist (block n ++ block (n + 1)) (schedTrace block N) := by
  induction N with
  | zero => omega
  | succ N ih =>
    rw [schedTrace_succ]
    rcases Nat.lt_or_ge (n + 1) N with hlt | hge
    · exact (ih hlt).trans (List.sublist_append_left _ _)
    · have hN' : N = n + 1 := by omega
      subst hN'
      refine List.Sublist.append ?_ (List.Sublist.refl _)
      rw [schedTrace_succ]
      exact List.sublist_append_right _ _

/-! ## Claim theorems -/

theorem status_pm1_def (ms : List OutputFrame) (now : String) :
    (status_from_measurements ms now).pm_1_0 =
      wrapSum32 (ms.map (fun m => m.pm1_0)) / (ms.length % U32) := rfl

theorem overflowFrames_map_pm1 :
    overflowFrames.map (fun m => m.pm1_0) = List.replicate 65538 65535 := by
  rw [overflowFrames, List.map_replicate]

theorem overflowFrames_mean_computed :
    (status_from_measurements overflowFrames "t").pm_1_0 = 0 ∧
    (overflowFrames.map (fun m => m.pm1_0)).sum / overflowFrames.length = 65535 := by
  have hlen : overflowFrames.length = 65538 := by
    rw [overflowFrames, List.length_replicate]
  have hsum : (List.replicate 65538 65535 : List Nat).sum = 65538 * 65535 := by
    rw [List.sum_replicate, smul_eq_mul]
  constructor
  · rw [status_pm1_def, overflowFrames_map_pm1, hlen, wrapSum32_eq, hsum]
    norm_num [U32]
  · rw [overflowFrames_map_pm1, hlen, hsum]

/-- C1 counterexample: at 65538 maximal samples the u32 accumulator wraps, so
the computed channel value (0) differs from the truncated integer mean of the
collected samples (65535) — the claim fails as universally stated. -/
theorem C1_counterexample :
    (status_from_measurements overflowFrames "t").pm_1_0 ≠
      (overflowFrames.map (fun m => m.pm1_0)).sum / overflowFrames.length := by
  have h := overflowFrames_mean_computed
  rw [h.1, h.2]
  norm_num

/-- C1 (amended): for every non-empty list of at most 65537 frames with
16-bit channel values — so that the per-channel u32 sum cannot wrap — each
channel of the AggregatedStatus equals the truncated integer mean of that
channel over the samples; e.g., samples 1, 2, 3 on one channel yield 2. -/
theorem C1_channel_mean (ms : List OutputFrame) (now : String) (hne : ms ≠ [])
    (hb : ∀ m ∈ ms, m.pm1_0 < 65536 ∧ m.pm2_5 < 65536 ∧ m.pm10 < 65536)
    (hlen : ms.length ≤ 65537) :
    (status_from_measurements ms now).pm_1_0 = (ms.map (fun m => m.pm1_0)).sum / ms.length ∧
    (status_from_measurements ms now).pm_2_5 = (ms.map (fun m => m.pm2_5)).sum / ms.length ∧
    (status_from_measurements ms now).pm_10 = (ms.map (fun m => m.pm10)).sum / ms.length :=
  status_exact_mean ms now hne hb hlen

theorem C1_channel_mean_witness :
    (status_from_measurements exFrames "t").pm_1_0 = 2 := by
  have h := C1_channel_mean exFrames "t" (by decide) (by decide) (by decide)
  rw [h.1]
  decide

/-- C10: summing each 16-bit channel into the u32 accumulator is exact for
every non-empty list of at most 65536 samples — the per-channel sum stays
below 2^32 and the computed mean is the exact truncated integer mean — while
for a longer list the sum can wrap modulo 2^32 and the mean can be wrong. -/
theorem C10_u32_accumulator :
    (∀ (ms : List OutputFrame) (now : String), ms ≠ [] → ms.length ≤ 65536 →
      (∀ m ∈ ms, m.pm1_0 < 65536 ∧ m.pm2_5 < 65536 ∧ m.pm10 < 65536) →
      (ms.map (fun m => m.pm1_0)).sum < U32 ∧
      (ms.map (fun m => m.pm2_5)).sum < U32 ∧
      (ms.map (fun m => m.pm10)).sum < U32 ∧
      (status_from_measurements ms now).pm_1_0 = (ms.map (fun m => m.pm1_0)).sum / ms.length ∧
      (status_from_measurements ms now).pm_2_5 = (ms.map (fun m => m.pm2_5)).sum / ms.length ∧
      (status_from_measurements ms now).pm_10 = (ms.map (fun m => m.pm10)).sum / ms.length) ∧
    (∃ (ms : List OutputFrame) (now : String), 65536 < ms.length ∧
      (∀ m ∈ ms, m.pm1_0 < 65536 ∧ m.pm2_5 < 65536 ∧ m.pm10 < 65536) ∧
      (status_from_measurements ms now).pm_1_0 ≠
        (ms.map (fun m => m.pm1_0)).sum / ms.length) := by
  constructor
  · intro ms now hne hlen hb
    have hchan : ∀ f : OutputFrame → Nat, (∀ m ∈ ms, f m < 65536) →
        (ms.map f).sum < U32 := by
      intro f hf
      refine sum_lt_U32_of_bounded _ ?_ (by simpa using hlen.trans (by omega))
      intro x hx
      rcases List.mem_map.mp hx with ⟨m, hm, rfl⟩
      exact hf m hm
    obtain ⟨e1, e2, e3⟩ := status_exact_mean ms now hne hb (hlen.trans (by omega))
    exact ⟨hchan _ (fun m hm => (hb m hm).1), hchan _ (fun m hm => (hb m hm).2.1),
      hchan _ (fun m hm => (hb m hm).2.2), e1, e2, e3⟩
  · refine ⟨overflowFrames, "t",
      by rw [overflowFrames, List.length_replicate]; norm_num, ?_, ?_⟩
    · intro m hm
      rcases List.eq_of_mem_replicate hm with rfl
      exact ⟨by norm_num, by norm_num, by norm_num⟩
    · have h := overflowFrames_mean_computed
      rw [h.1, h.2]
      norm_num

theorem C10_u32_accumulator_witness :
    (exFrames.map (fun m => m.pm1_0)).sum < U32 ∧
    (status_from_measurements exFrames "t").pm_1_0 = 2 := by
  have h := C10_u32_accumulator.1 exFrames "t" (by decide) (by decide) (by decide)
  refine ⟨h.1, ?_⟩
  rw [h.2.2.2.1]
  decide

/-- C2 counterexample: with a measurement count of 0 the collect loop exits
at once (the target is already met) and the cycle does reach the reduce step:
the trace of a completed cycle records a reduction over 0 samples, where the
Rust division divides by `measurements.len() as u32 = 0`. -/
theorem C2_counterexample :
    get_air_quality_status (fun _ => true) (fun _ => some ⟨0, 0, 0⟩)
        (fun _ => 31) true "t" 0 2 =
      .ok ⟨0, 0, 0, "t"⟩
        [.wakeCall true, .readCall true, .readCall true, .sleepCall true,
         .reduceCall 0] ∧
    Event.reduceCall 0 ∈
      [Event.wakeCall true, .readCall true, .readCall true, .sleepCall true,
       .reduceCall 0] := by
  exact ⟨by decide, by decide⟩

/-- C2 (amended): when the configured measurement count is 0, the collect
loop exits immediately with an empty sample list — its exit condition
`len < 0` is false at once — and every completed cycle still reaches the
reduce step, executing the integer-mean division over the empty list (in
Rust a division by zero); the exit invariant guarantees a non-empty list
only when the count is at least 1. -/
theorem C2_reduce_reached_on_zero_target (wakes : Nat → Bool)
    (reads : Nat → Option OutputFrame) (elapsed : Nat → Nat) (sleepOk : Bool)
    (now : String) (fuel : Nat) (st : AitQualityStatus) (tr : List Event)
    (h : get_air_quality_status wakes reads elapsed sleepOk now 0 fuel = .ok st tr) :
    Event.reduceCall 0 ∈ tr ∧ st = status_from_measurements [] now := by
  obtain ⟨wi, ri, evW, ri2, evU, ms, k, evC, hwk, hwu, hco, hst, htr⟩ :=
    cycle_spec _ _ _ _ _ _ _ _ _ h
  rw [collect_target_zero reads fuel ri2] at hco
  obtain ⟨h1, h2, h3⟩ : ([] : List OutputFrame) = ms ∧ ri2 = k ∧
      ([] : List Event) = evC := by simpa using hco
  subst h1; subst h3
  subst htr; subst hst
  simp

theorem C2_reduce_reached_on_zero_target_witness :
    Event.reduceCall 0 ∈
      ([.wakeCall true, .readCall true, .readCall true, .sleepCall true,
        .reduceCall 0] : List Event) ∧
    (⟨0, 0, 0, "t"⟩ : AitQualityStatus) = status_from_measurements [] "t" :=
  C2_reduce_reached_on_zero_target (fun _ => true) (fun _ => some ⟨0, 0, 0⟩)
    (fun _ => 31) true "t" 2 ⟨0, 0, 0, "t"⟩ _ (by decide)

/-- C3 counterexample: a cycle whose every `wake()` call fails returns an
error immediately — the wake failure is surfaced as the error of the cycle,
not retried indefinitely. -/
theorem C3_counterexample :
    get_air_quality_status (fun _ => false) (fun _ => none) (fun _ => 0)
      true "t" 1 5 = .err := by
  decide

/-- C3 (amended): in the wake phase, each iteration calls `wake()` and then
`read()`: a failing `wake()` aborts the cycle with an error at once (the `?`
operator propagates it out of `get_air_quality_status`); a successful
`wake()` followed by a successful `read()` confirms the sensor ready; a
successful `wake()` followed by a failing `read()` retries the whole
wake-and-read iteration. -/
theorem C3_wake_protocol (wakes : Nat → Bool) (reads : Nat → Option OutputFrame)
    (fuel wi ri : Nat) :
    (wakes wi = false → wakePhase wakes reads (fuel + 1) wi ri = .err) ∧
    (∀ m, wakes wi = true → reads ri = some m →
      wakePhase wakes reads (fuel + 1) wi ri =
        .ok (wi + 1) (ri + 1) [.wakeCall true, .readCall true]) ∧
    (wakes wi = true → reads ri = none →
      ∀ wi2 ri2 evs, wakePhase wakes reads fuel (wi + 1) (ri + 1) = .ok wi2 ri2 evs →
        wakePhase wakes reads (fuel + 1) wi ri =
          .ok wi2 ri2 (.wakeCall true :: .readCall false :: evs)) ∧
    (∀ elapsed sleepOk now target, wakes 0 = false →
      get_air_quality_status wakes reads elapsed sleepOk now target (fuel + 1) = .err) := by
  obtain ⟨p1, p2, p3⟩ := wake_step wakes reads fuel wi ri
  exact ⟨p1, p2, p3, fun elapsed sleepOk now target hw =>
    cycle_err_of_wake_failure wakes reads elapsed sleepOk now target fuel hw⟩

theorem C3_wake_protocol_witness :
    wakePhase (fun _ => false) (fun _ => none) 3 0 0 = WakeResult.err ∧
    get_air_quality_status (fun _ => false) (fun _ => none) (fun _ => 0)
      true "t" 1 3 = .err :=
  ⟨(C3_wake_protocol (fun _ => false) (fun _ => none) 2 0 0).1 rfl,
   (C3_wake_protocol (fun _ => false) (fun _ => none) 2 0 0).2.2.2
     (fun _ => 0) true "t" 1 rfl⟩

/-- C4: a terminating collect loop with target at least 1 exits exactly when
the number of successful reads reaches the target: the collected list is
precisely the successes among the k attempts consumed, it has exactly
`target` elements, and the k - target failed attempts were absorbed. -/
theorem C4_collect_exact (reads : Nat → Option OutputFrame) (target fuel : Nat)
    (ms : List OutputFrame) (k : Nat) (evs : List Event)
    (_htarget : 1 ≤ target)
    (h : collectPhase reads target fuel 0 [] = some (ms, k, evs)) :
    ms.length = target ∧
    ms = (List.range k).filterMap reads ∧
    (List.range k).countP (fun i => (reads i).isNone) = k - target ∧
    evs.length = k := by
  obtain ⟨h1, h2, h3, h4⟩ := collect_spec reads target fuel 0 [] ms k evs (by simp) h
  rw [Nat.sub_zero] at h3 h4
  have hr : List.range' 0 k = List.range k := (List.range_eq_range' k).symm
  rw [hr, List.nil_append] at h3
  refine ⟨h1, h3, ?_, h4⟩
  have hsome : (List.range k).countP (fun i => (reads i).isSome) = target := by
    rw [← h1, h3, List.length_filterMap_eq_countP]
  have hsplit := countP_add_countP_not (fun i => (reads i).isSome) (List.range k)
  have hnone : (fun i => (reads i).isNone) = fun i => !(reads i).isSome := by
    funext i
    exact (Option.bnot_isSome (reads i)).symm
  rw [hnone]
  rw [hsome, List.length_range] at hsplit
  omega

theorem C4_collect_exact_witness :
    ([⟨5, 5, 5⟩, ⟨5, 5, 5⟩, ⟨5, 5, 5⟩] : List OutputFrame).length = 3 ∧
    ([⟨5, 5, 5⟩, ⟨5, 5, 5⟩, ⟨5, 5, 5⟩] : List OutputFrame) =
      (List.range 5).filterMap exReads ∧
    (List.range 5).countP (fun i => (exReads i).isNone) = 5 - 3 ∧
    ([.readCall false, .readCall true, .readCall false, .readCall true,
      .readCall true] : List Event).length = 5 :=
  C4_collect_exact exReads 3 5 [⟨5, 5, 5⟩, ⟨5, 5, 5⟩, ⟨5, 5, 5⟩] 5
    [.readCall false, .readCall true, .readCall false, .readCall true,
     .readCall true] (by omega) (by decide)

/-- C5: for every AggregatedStatus and topic prefix, `publish_status` emits
exactly four messages, all retained with QoS AtLeastOnce: the structured
serialization of the three pm fields plus the timestamp under
`<prefix>/status`, and the plain decimal rendering of each channel under
`<prefix>/pm1_0`, `<prefix>/pm2_5`, `<prefix>/pm10`; e.g. 10/20/30 under
"air" gives payloads "10", "20", "30". -/
theorem C5_publish_four (st : AitQualityStatus) (topic : String) :
    publish_status st topic =
      [ ⟨topic ++ "/status", .atLeastOnce, true, serializeStatus st⟩,
        ⟨topic ++ "/pm1_0", .atLeastOnce, true, toString st.pm_1_0⟩,
        ⟨topic ++ "/pm2_5", .atLeastOnce, true, toString st.pm_2_5⟩,
        ⟨topic ++ "/pm10", .atLeastOnce, true, toString st.pm_10⟩ ] ∧
    (publish_status st topic).length = 4 ∧
    ((publish_status st topic).all
      (fun m => m.qos == QoS.atLeastOnce && m.retain)) = true ∧
    publish_status ⟨10, 20, 30, "T"⟩ "air" =
      [ ⟨"air/status", .atLeastOnce, true, serializeStatus ⟨10, 20, 30, "T"⟩⟩,
        ⟨"air/pm1_0", .atLeastOnce, true, "10"⟩,
        ⟨"air/pm2_5", .atLeastOnce, true, "20"⟩,
        ⟨"air/pm10", .atLeastOnce, true, "30"⟩ ] :=
  ⟨rfl, rfl, rfl, by decide⟩

/-- C6 counterexample: in a tick whose particulate unit fails on acquisition
(a crash before any publish) and whose environmental unit is healthy, the
schedule in which `main` panics on the pollution join before the
environmental unit has run yields no observed messages at all — the
environmental publishes of that tick are not observed, refuting the claimed
failure independence. -/
theorem C6_counterexample :
    taskMsgs (temperatureSteps (some ("1", "2", "3")) (fun _ => true) "air") =
      temperature_publishes "1" "2" "3" "air" ∧
    (tickObserved (pollutionSteps none (fun _ => true) "air")
        (temperatureSteps (some ("1", "2", "3")) (fun _ => true) "air") 0).1 = [] ∧
    (tickObserved (pollutionSteps none (fun _ => true) "air")
        (temperatureSteps (some ("1", "2", "3")) (fun _ => true) "air") 0).2 = false :=
  ⟨by decide, by decide, by decide⟩

/-- C6 (amended): the two units are not failure-independent in both
directions.  Because `main` awaits the particulate unit first, a completed
particulate unit has all its publishes observed whatever the environmental
unit does — including crashing; but a particulate failure panics the process
and the environmental publishes of that tick are not guaranteed to be
observed (see the counterexample). -/
theorem C6_particulate_first (st : AitQualityStatus) (pubOk : Nat → Bool)
    (topic : String) (temp : List Step) (k : Nat)
    (hok : taskOk (pollutionSteps (some st) pubOk topic) = true) :
    (tickObserved (pollutionSteps (some st) pubOk topic) temp k).1 =
      taskMsgs (pollutionSteps (some st) pubOk topic) ++ taskMsgs temp := by
  simp [tickObserved, hok]

theorem C6_particulate_first_witness :
    (tickObserved (pollutionSteps (some ⟨1, 2, 3, "T"⟩) (fun _ => true) "air")
        (temperatureSteps none (fun _ => true) "air") 0).1 =
      taskMsgs (pollutionSteps (some ⟨1, 2, 3, "T"⟩) (fun _ => true) "air") ++
        taskMsgs (temperatureSteps none (fun _ => true) "air") :=
  C6_particulate_first ⟨1, 2, 3, "T"⟩ (fun _ => true) "air"
    (temperatureSteps none (fun _ => true) "air") 0 (by decide)

/-- C7 counterexample: when the tick-0 particulate unit fails, its
`unwrap()` panics `main` and there is no scheduler state at tick 1 — the
scheduler loop has terminated, refuting the unconditional claim that it
never terminates. -/
theorem C7_counterexample :
    schedRun (fun _ => false) (fun _ => true) 1 = none := by decide

/-- C7 (amended): each tick's unit for a sensor runs on the handle returned
by the previous tick's unit — after n ticks each handle has completed
exactly n cycles — and the completion event of tick n's particulate unit
precedes the start event of tick n+1's particulate unit in every scheduler
trace, for every within-tick interleaving; the loop runs forever provided
every unit of every tick completes without failure (a unit failure panics
`main` and terminates the loop). -/
theorem C7_sequential_ticks :
    (∀ pOk tOk : Nat → Bool, (∀ m, pOk m = true) → (∀ m, tOk m = true) →
      ∀ n, schedRun pOk tOk n = some (n, n)) ∧
    (∀ (block : Nat → List SEvent) (n N : Nat), n + 1 < N →
      SEvent.unitDone .particulate n ∈ block n →
      SEvent.unitStart .particulate (n + 1) ∈ block (n + 1) →
      List.Sublist
        [SEvent.unitDone .particulate n, SEvent.unitStart .particulate (n + 1)]
        (schedTrace block N)) := by
  constructor
  · intro pOk tOk hp ht n
    induction n with
    | zero => rfl
    | succ n ih => simp [schedRun, ih, hp n, ht n]
  · intro block n N hN hd hs
    have h1 : List.Sublist [SEvent.unitDone .particulate n] (block n) :=
      List.singleton_sublist.mpr hd
    have h2 : List.Sublist [SEvent.unitStart .particulate (n + 1)] (block (n + 1)) :=
      List.singleton_sublist.mpr hs
    exact (h1.append h2).trans (consecutive_blocks_sublist block n N hN)

theorem C7_sequential_ticks_witness :
    schedRun (fun _ => true) (fun _ => true) 3 = some (3, 3) ∧
    List.Sublist [SEvent.unitDone .particulate 0, SEvent.unitStart .particulate 1]
      (schedTrace exBlock 3) :=
  ⟨C7_sequential_ticks.1 (fun _ => true) (fun _ => true) (fun _ => rfl)
      (fun _ => rfl) 3,
   C7_sequential_ticks.2 exBlock 0 3 (by omega) (by decide) (by decide)⟩

/-- C8 counterexample: in a healthy one-measurement cycle the trace records
the sleep call strictly before the reduction — the reduce step does not
precede the sleep step, refuting the claimed order (the code calls
`sensor.sleep()` and only then computes `status_from_measurements`). -/
theorem C8_counterexample :
    get_air_quality_status (fun _ => true) (fun _ => some ⟨7, 8, 9⟩)
        (fun _ => 31) true "t" 1 3 = .ok ⟨7, 8, 9, "t"⟩ exTrace ∧
    reduceBeforeSleep exTrace = false ∧
    (exTrace.findIdx? isSleep).isSome = true ∧
    (exTrace.findIdx? isReduce).isSome = true :=
  ⟨by decide, by decide, by decide, by decide⟩

/-- C8 (amended): in every successful cycle the sleep step precedes the
reduce step — the trace ends with the sleep call followed by the reduction —
and the sleep outcome does not alter the returned AggregatedStatus: the same
status (timestamp included) is returned whatever `sleep()` returns. -/
theorem C8_sleep_then_reduce (wakes : Nat → Bool) (reads : Nat → Option OutputFrame)
    (elapsed : Nat → Nat) (sleepOk : Bool) (now : String) (target fuel : Nat)
    (st : AitQualityStatus) (tr : List Event)
    (h : get_air_quality_status wakes reads elapsed sleepOk now target fuel =
        .ok st tr) :
    (∃ pre n, tr = pre ++ [Event.sleepCall sleepOk, Event.reduceCall n]) ∧
    (∀ sleepOk' : Bool, ∃ tr',
      get_air_quality_status wakes reads elapsed sleepOk' now target fuel =
        .ok st tr') := by
  obtain ⟨wi, ri, evW, ri2, evU, ms, k, evC, hwk, hwu, hco, hst, htr⟩ :=
    cycle_spec _ _ _ _ _ _ _ _ _ h
  constructor
  · exact ⟨evW ++ evU ++ evC, ms.length, by rw [htr]⟩
  · intro sleepOk'
    refine ⟨evW ++ evU ++ evC ++ [Event.sleepCall sleepOk',
      Event.reduceCall ms.length], ?_⟩
    simp only [get_air_quality_status, hwk, hwu, hco]
    rw [hst]

theorem C8_sleep_then_reduce_witness :
    ∃ pre n, exTrace = pre ++ [Event.sleepCall true, Event.reduceCall n] :=
  (C8_sleep_then_reduce (fun _ => true) (fun _ => some ⟨7, 8, 9⟩) (fun _ => 31)
    true "t" 1 3 ⟨7, 8, 9, "t"⟩ exTrace (by decide)).1

/-- C9: warm-up reads and discards samples on the duration policy (the code
implements the fixed 30-second wall-clock variant): the phase's control flow
is independent of the read results — failures neither abort nor extend it —
a terminating warm-up stops at the first read past the 30-second mark, and
no warm-up sample enters the aggregate: in every successful cycle the collect
phase starts from an empty accumulator exactly at the read index the warm-up
phase exits with, so the reduced samples are precisely successes of reads at
indices at or beyond that warm-up exit index (warm-up reads occupy the
indices strictly below it). -/
theorem C9_warmup_discard (reads reads' : Nat → Option OutputFrame)
    (elapsed : Nat → Nat) (fuel j ri : Nat) :
    ((warmupPhase reads elapsed fuel j ri).map (fun r => (r.1, r.2.length)) =
      (warmupPhase reads' elapsed fuel j ri).map (fun r => (r.1, r.2.length))) ∧
    (∀ ri2 evs, warmupPhase reads elapsed fuel j ri = some (ri2, evs) →
      ∃ d, ri2 = ri + d + 1 ∧ elapsed (j + d) > 30 ∧
        (∀ d' < d, elapsed (j + d') ≤ 30) ∧ evs.length = d + 1) ∧
    (∀ wakes sleepOk now target st tr,
      get_air_quality_status wakes reads elapsed sleepOk now target fuel =
        .ok st tr →
      ∃ wi ri0 evW ri2 evU ms k evC,
        wakePhase wakes reads fuel 0 0 = .ok wi ri0 evW ∧
        warmupPhase reads elapsed fuel 0 ri0 = some (ri2, evU) ∧
        collectPhase reads target fuel ri2 [] = some (ms, k, evC) ∧
        ri2 ≤ k ∧
        ms = (List.range' ri2 (k - ri2)).filterMap reads ∧
        st = status_from_measurements ms now) := by
  refine ⟨warmup_independent_of_reads reads reads' elapsed fuel j ri,
    fun ri2 evs h => warmup_exits_on_duration reads elapsed fuel j ri ri2 evs h, ?_⟩
  intro wakes sleepOk now target st tr h
  obtain ⟨wi, ri0, evW, ri2, evU, ms, k, evC, hwk, hwu, hco, hst, htr⟩ :=
    cycle_spec _ _ _ _ _ _ _ _ _ h
  obtain ⟨g1, g2, g3, g4⟩ := collect_spec reads target fuel ri2 [] ms k evC (by simp) hco
  exact ⟨wi, ri0, evW, ri2, evU, ms, k, evC, hwk, hwu, hco, g2, by simpa using g3, hst⟩

theorem C9_warmup_discard_witness :
    (∃ d, (2 : Nat) = 1 + d + 1 ∧ (31 : Nat) > 30 ∧
      (∀ d' < d, (31 : Nat) ≤ 30) ∧ (1 : Nat) = d + 1) ∧
    (∃ wi ri0 evW ri2 evU ms k evC,
      wakePhase (fun _ => true) (fun _ => some ⟨0, 0, 0⟩) 2 0 0 =
        .ok wi ri0 evW ∧
      warmupPhase (fun _ => some ⟨0, 0, 0⟩) (fun _ => 31) 2 0 ri0 =
        some (ri2, evU) ∧
      collectPhase (fun _ => some ⟨0, 0, 0⟩) 1 2 ri2 [] = some (ms, k, evC) ∧
      ri2 ≤ k ∧
      ms = (List.range' ri2 (k - ri2)).filterMap (fun _ => some ⟨0, 0, 0⟩) ∧
      (⟨0, 0, 0, "t"⟩ : AitQualityStatus) = status_from_measurements ms "t") :=
  ⟨(C9_warmup_discard (fun _ => some ⟨0, 0, 0⟩) (fun _ => none) (fun _ => 31)
      2 0 1).2.1 2 [Event.readCall true] (by decide),
   (C9_warmup_discard (fun _ => some ⟨0, 0, 0⟩) (fun _ => none) (fun _ => 31)
      2 0 1).2.2 (fun _ => true) true "t" 1 ⟨0, 0, 0, "t"⟩
      [.wakeCall true, .readCall true, .readCall true, .readCall true,
       .sleepCall true, .reduceCall 1] (by decide)⟩

end AirMonitor
